import Mathlib

/-!
Verification of the sustainable-vendor-classifier pipeline
(src/solar_vendor_app.py): the keyword filter, the snippet provider,
the classifier, the classification memo and the per-row pipeline loop.

Python strings are modelled as Lean `String`; Python string operations
(`strip`, `split(",")`, `lower`, substring `in`) are embedded as
structurally recursive functions over `String.data` so that all
definitions evaluate inside the kernel.  Cells of the vendor table are
modelled by `Cell`, with `Cell.nan` standing for a missing (NaN) value,
and Python `str(...)` coercion by `pyStr` (`str(nan) = "nan"`).
External services (the SerpAPI HTTP call and the chat-completion call)
are modelled as oracle functions returning `Except`, the `error` case
standing for a raised exception.
-/

/-- Python whitespace-strip of a character list: drop whitespace from both ends. -/
def stripChars (l : List Char) : List Char :=
  ((l.dropWhile Char.isWhitespace).reverse.dropWhile Char.isWhitespace).reverse

/-- Python `s.strip()`. -/
def pyStrip (s : String) : String := ⟨stripChars s.data⟩

/-- Python `s.split(",")` on the underlying character list. -/
def splitComma : List Char → List (List Char)
  | [] => [[]]
  | c :: rest =>
    match splitComma rest, decide (c = ',') with
    | r, true => [] :: r
    | [], false => [[c]]
    | h :: t, false => (c :: h) :: t

/-- Python `s.split(",")`. -/
def pySplitComma (s : String) : List String := (splitComma s.data).map (fun l => ⟨l⟩)

/-- Python `s.lower()` (ASCII case folding). -/
def pyLower (s : String) : String := ⟨s.data.map Char.toLower⟩

/-- Python substring test `t in s`. -/
def pyIn (t s : String) : Bool := decide (t.data <:+: s.data)

/-- A cell of the vendor table: a string value or a missing value (NaN). -/
inductive Cell where
  | str : String → Cell
  | nan : Cell
deriving DecidableEq

/-- Python `str(...)` coercion of a cell; `str` of a pandas NaN prints as "nan". -/
def pyStr : Cell → String
  | Cell.str s => s
  | Cell.nan => "nan"

/-- A row of the vendor table: the `Company` and `Location` cells plus all
remaining (name, cell) columns, in order. -/
structure Row where
  company : Cell
  location : Cell
  other : List (String × Cell)
deriving DecidableEq

/-- The term list derived from the search-terms string:
`[term.strip().lower() for term in search_terms.split(",")]`. -/
def termsOf (search_terms : String) : List String :=
  (pySplitComma search_terms).map (fun t => pyLower (pyStrip t))

/-- The row predicate of the filter:
`any(term in str(row["Location"]).lower() or term in str(row["Company"]).lower()
for term in terms)`. -/
def rowKeep (terms : List String) (r : Row) : Bool :=
  terms.any (fun term =>
    pyIn term (pyLower (pyStr r.location)) || pyIn term (pyLower (pyStr r.company)))

/-- `filter_by_keywords(df, search_terms)` from src/solar_vendor_app.py:
if the search-terms string is blank after stripping, return the table
unchanged; otherwise keep the rows satisfying `rowKeep` for the derived
term list. -/
def filter_by_keywords (df : List Row) (search_terms : String) : List Row :=
  if pyStrip search_terms = "" then df
  else df.filter (rowKeep (termsOf search_terms))

/-- One organic result of a SerpAPI response: its optional `snippet` field. -/
structure SerpResult where
  snippet : Option String
deriving DecidableEq

/-- The parsed JSON body of a SerpAPI response: the optional
`organic_results` array (`none` models an absent key). -/
structure SerpData where
  organic_results : Option (List SerpResult)
deriving DecidableEq

/-- `get_serp_snippet(company, location, search_terms, serp_api_key)` from
src/solar_vendor_app.py.  The HTTP transport is the oracle `http`, applied
to the query string; `Except.error e` models a raised exception with
message `e` (also covering a body that fails to parse as JSON).  The body
mirrors `data.get("organic_results", [{}])[0].get("snippet", "No snippet
found")`: an absent key defaults to a one-element list of an empty dict;
indexing an empty `organic_results` list raises an `IndexError`, which the
surrounding `try` turns into the error string. -/
def get_serp_snippet (http : String → Except String SerpData)
    (company location search_terms : String) : String :=
  let query := company ++ " " ++ location ++ " " ++ search_terms
  match http query with
  | Except.error e => "Error retrieving snippet: " ++ e
  | Except.ok data =>
    match (data.organic_results.getD [⟨none⟩]).head? with
    | some r => r.snippet.getD "No snippet found"
    | none => "Error retrieving snippet: list index out of range"

/-- The classification prompt built by `classify_vendor`. -/
def buildPrompt (company snippet category : String) : String :=
  "\nYou are helping classify vendors for a project.\n\nGiven the following company information, classify whether the company appears aligned with **"
    ++ category
    ++ "** services.\n\nCompany: " ++ company
    ++ "\nGoogle Snippet: " ++ snippet
    ++ "\n\nRespond with one of:\n- ✅ Likely Aligned\n- ❓ Possibly Related\n- ❌ Not Aligned\n"

/-- `classify_vendor(company, snippet, category, model_choice)` from
src/solar_vendor_app.py.  The chat-completion call is the oracle `llm`,
applied to the model choice and the prompt; on success the response text
is stripped and returned verbatim, on a raised exception the error-marker
string is returned. -/
def classify_vendor (llm : String → String → Except String String)
    (company snippet category model_choice : String) : String :=
  match llm model_choice (buildPrompt company snippet category) with
  | Except.ok content => pyStrip content
  | Except.error e => "❌ Error: " ++ e

/-- Key of the classification memo: (identity name, snippet, category, model). -/
structure MemoKey where
  name : String
  snippet : String
  category : String
  model : String
deriving DecidableEq

/-- Lookup of a key in the memo association list. -/
def memoLookup (m : List (MemoKey × String)) (k : MemoKey) : Option String :=
  match m with
  | [] => none
  | (k2, v) :: rest => if k2 = k then some v else memoLookup rest k

/-- Modelled from the spec: the ClassificationMemo component (spec §4.4) is
absent from the provided source file, whose loop calls `classify_vendor`
directly; the memo of the other script variants is modelled here from the
words of the spec.  `getOrCompute(key, computeFn)` returns the cached label when
the key is present and otherwise invokes the compute function once and
stores its result.  The compute function receives the running invocation
count, so a later invocation may return a different value, modelling a
compute function whose underlying side effect differs between calls; the
count is threaded through as state. -/
def getOrCompute (memo : List (MemoKey × String)) (k : MemoKey)
    (f : Nat → String) (calls : Nat) : String × List (MemoKey × String) × Nat :=
  match memoLookup memo k with
  | some v => (v, memo, calls)
  | none => (f calls, (k, f calls) :: memo, calls + 1)

/-- One per-row debug record of the classification loop. -/
structure DebugLog where
  Company : String
  Location : String
  Snippet : String
  Classification : String
deriving DecidableEq

/-- `query_terms = search_terms if search_terms else ""` (line 119). -/
def queryTerms (search_terms : String) : String :=
  if search_terms = "" then "" else search_terms

/-- The query string `f"{company} {location} {search_terms}"` issued to the
snippet service for a row. -/
def rowQuery (search_terms : String) (r : Row) : String :=
  pyStr r.company ++ " " ++ pyStr r.location ++ " " ++ queryTerms search_terms

/-- The snippet obtained for a row (line 120). -/
def rowSnippet (http : String → Except String SerpData)
    (search_terms : String) (r : Row) : String :=
  get_serp_snippet http (pyStr r.company) (pyStr r.location) (queryTerms search_terms)

/-- The classification obtained for a row (line 121). -/
def rowResult (http : String → Except String SerpData)
    (llm : String → String → Except String String)
    (search_terms category model_choice : String) (r : Row) : String :=
  classify_vendor llm (pyStr r.company) (rowSnippet http search_terms r)
    category model_choice

/-- The debug record appended for a row (lines 123-128). -/
def rowDebug (http : String → Except String SerpData)
    (llm : String → String → Except String String)
    (search_terms category model_choice : String) (r : Row) : DebugLog :=
  ⟨pyStr r.company, pyStr r.location, rowSnippet http search_terms r,
    rowResult http llm search_terms category model_choice r⟩

/-- The prompt sent to the completion service for a row. -/
def rowPrompt (http : String → Except String SerpData)
    (search_terms category : String) (r : Row) : String :=
  buildPrompt (pyStr r.company) (rowSnippet http search_terms r) category

/-- The classification loop over the filtered rows (lines 116-129).  Returns
(classifications, debug logs, queries sent to the snippet service, prompts
sent to the classification service); each iteration issues exactly one call
to each service. -/
def runPipeline (http : String → Except String SerpData)
    (llm : String → String → Except String String)
    (search_terms category model_choice : String) : List Row →
    List String × List DebugLog × List String × List String
  | [] => ([], [], [], [])
  | r :: rest =>
    let tail := runPipeline http llm search_terms category model_choice rest
    (rowResult http llm search_terms category model_choice r :: tail.1,
     rowDebug http llm search_terms category model_choice r :: tail.2.1,
     rowQuery search_terms r :: tail.2.2.1,
     rowPrompt http search_terms category r :: tail.2.2.2)

/-- The output table `filtered_df` after
`filtered_df["Classification"] = classifications` (line 131): each row
paired with its positionally assigned classification. -/
def outputTable (http : String → Except String SerpData)
    (llm : String → String → Except String String)
    (search_terms category model_choice : String) (rows : List Row) :
    List (Row × String) :=
  rows.zip (runPipeline http llm search_terms category model_choice rows).1

/-- Concrete inputs for the witnesses. -/
def row₀ : Row := ⟨Cell.str "Acme Solar", Cell.str "Washington DC", [("Id", Cell.str "7")]⟩

def row₁ : Row := ⟨Cell.str "Bolt HVAC", Cell.str "Austin", []⟩

def df₀ : List Row := [row₀, row₁]

def httpFail : String → Except String SerpData := fun _ => Except.error "boom"

def llmOk : String → String → Except String String :=
  fun _ _ => Except.ok "✅ Likely Aligned"

/-- The row predicate holds iff some term is a substring of the case-folded
company field or the case-folded location field. -/
theorem rowKeep_iff (terms : List String) (r : Row) :
    rowKeep terms r = true ↔
      ∃ t ∈ terms, t.data <:+: (pyLower (pyStr r.company)).data ∨
        t.data <:+: (pyLower (pyStr r.location)).data := by
  simp only [rowKeep, List.any_eq_true, Bool.or_eq_true, pyIn, decide_eq_true_eq]
  constructor
  · rintro ⟨t, ht, h⟩
    exact ⟨t, ht, h.symm⟩
  · rintro ⟨t, ht, h⟩
    exact ⟨t, ht, h.symm⟩

/-- Claim C1: for every vendor table and non-blank filter spec, a record is
kept by `filter_by_keywords` iff at least one comma-split, stripped,
lower-cased term is a substring of the lower-cased Company field or the
lower-cased Location field, and the kept records appear in their original
order (the result is a sublist of the input). -/
theorem filter_by_keywords_keeps_iff (df : List Row) (st : String)
    (h : pyStrip st ≠ "") :
    (filter_by_keywords df st).Sublist df ∧
    ∀ r : Row, r ∈ filter_by_keywords df st ↔
      r ∈ df ∧ ∃ t ∈ termsOf st,
        t.data <:+: (pyLower (pyStr r.company)).data ∨
        t.data <:+: (pyLower (pyStr r.location)).data := by
  unfold filter_by_keywords
  rw [if_neg h]
  refine ⟨List.filter_sublist df, fun r => ?_⟩
  rw [List.mem_filter, rowKeep_iff]

theorem filter_by_keywords_keeps_iff_witness :
    pyStrip "solar, zz" ≠ "" ∧
    ((filter_by_keywords df₀ "solar, zz").Sublist df₀ ∧
     ∀ r : Row, r ∈ filter_by_keywords df₀ "solar, zz" ↔
       r ∈ df₀ ∧ ∃ t ∈ termsOf "solar, zz",
         t.data <:+: (pyLower (pyStr r.company)).data ∨
         t.data <:+: (pyLower (pyStr r.location)).data) :=
  ⟨by decide, filter_by_keywords_keeps_iff df₀ "solar, zz" (by decide)⟩

/-- Claim C2: when the search-terms string is blank after stripping, the
filter returns the input table unchanged. -/
theorem filter_by_keywords_blank_identity (df : List Row) (st : String)
    (h : pyStrip st = "") :
    filter_by_keywords df st = df := by
  unfold filter_by_keywords
  rw [if_pos h]

theorem filter_by_keywords_blank_identity_witness :
    pyStrip "   " = "" ∧ filter_by_keywords df₀ "   " = df₀ :=
  ⟨by decide, filter_by_keywords_blank_identity df₀ "   " (by decide)⟩

/-- Claim C9: a non-blank search-terms string whose derived term list contains
the empty string (for example a lone comma) keeps every row, because the
empty string is a substring of every field. -/
theorem filter_by_keywords_empty_term_keeps_all (df : List Row) (st : String)
    (h1 : pyStrip st ≠ "") (h2 : "" ∈ termsOf st) :
    filter_by_keywords df st = df := by
  unfold filter_by_keywords
  rw [if_neg h1]
  refine List.filter_eq_self.mpr (fun r _ => ?_)
  rw [rowKeep_iff]
  exact ⟨"", h2, Or.inl List.nil_infix⟩

theorem filter_by_keywords_empty_term_keeps_all_witness :
    pyStrip "," ≠ "" ∧ "" ∈ termsOf "," ∧ filter_by_keywords df₀ "," = df₀ :=
  ⟨by decide, by decide,
    filter_by_keywords_empty_term_keeps_all df₀ "," (by decide) (by decide)⟩

/-- Claim C10: the filter is total on rows with missing (NaN) cells: its
result is always a subsequence of the input (no row causes a failure), and a
NaN cell participates in matching exactly as its string coercion "nan". -/
theorem filter_by_keywords_total_nan :
    (∀ (df : List Row) (st : String), (filter_by_keywords df st).Sublist df) ∧
    (∀ (terms : List String) (c : Cell) (o : List (String × Cell)),
      rowKeep terms ⟨c, Cell.nan, o⟩ = rowKeep terms ⟨c, Cell.str "nan", o⟩ ∧
      rowKeep terms ⟨Cell.nan, c, o⟩ = rowKeep terms ⟨Cell.str "nan", c, o⟩) := by
  constructor
  · intro df st
    unfold filter_by_keywords
    split
    · exact List.Sublist.refl df
    · exact List.filter_sublist df
  · intro terms c o
    exact ⟨rfl, rfl⟩

/-- Claim C3 (spec-modelled): calling `getOrCompute` twice with the same key
invokes the compute function at most once in total, and the second call
returns the result of the first call, even though the compute function could
return a different value on a second invocation. -/
theorem getOrCompute_twice_same_key (m : List (MemoKey × String)) (k : MemoKey)
    (f : Nat → String) (c : Nat) :
    (getOrCompute (getOrCompute m k f c).2.1 k f (getOrCompute m k f c).2.2).1
        = (getOrCompute m k f c).1 ∧
    (getOrCompute (getOrCompute m k f c).2.1 k f (getOrCompute m k f c).2.2).2.2
        ≤ c + 1 := by
  cases h : memoLookup m k with
  | some v =>
    simp [getOrCompute, h]
  | none =>
    simp [getOrCompute, h, memoLookup]

/-- Claim C4 counterexample: the label returned by the classifier is not always
one of the three canonical strings or an error-marker string, and it can be
empty: a successful response of "hello" is returned verbatim, and a
whitespace-only successful response yields the empty label. -/
theorem classify_vendor_label_unconstrained :
    classify_vendor (fun _ _ => Except.ok "   ") "Acme" "snip" "solar" "gpt-4" = "" ∧
    classify_vendor (fun _ _ => Except.ok "hello") "Acme" "snip" "solar" "gpt-4" = "hello" ∧
    ("hello" : String) ∉ ["Likely Aligned", "Possibly Related", "Not Aligned"] ∧
    ("hello" : String) ∉ ["✅ Likely Aligned", "❓ Possibly Related", "❌ Not Aligned"] ∧
    (∀ e : String, ("hello" : String) ≠ "❌ Error: " ++ e) := by
  refine ⟨rfl, rfl, by decide, by decide, fun e h => ?_⟩
  have h2 := congrArg String.length h
  rw [String.length_append] at h2
  have h3 : ("hello" : String).length = 5 := rfl
  have h4 : ("❌ Error: " : String).length = 9 := rfl
  omega

/-- Claim C4 amended: on a failed request the classifier returns the nonempty
error-marker string "❌ Error: " followed by the failure detail; on success
it returns the stripped response text verbatim, which is not constrained to
the three canonical labels and may be any string, including the empty one. -/
theorem classify_vendor_cases (llm : String → String → Except String String)
    (company snippet category mc : String) :
    (∃ e, llm mc (buildPrompt company snippet category) = Except.error e ∧
        classify_vendor llm company snippet category mc = "❌ Error: " ++ e ∧
        classify_vendor llm company snippet category mc ≠ "") ∨
    (∃ content, llm mc (buildPrompt company snippet category) = Except.ok content ∧
        classify_vendor llm company snippet category mc = pyStrip content) := by
  cases h : llm mc (buildPrompt company snippet category) with
  | ok content =>
    right
    exact ⟨content, rfl, by simp [classify_vendor, h]⟩
  | error e =>
    left
    refine ⟨e, rfl, by simp [classify_vendor, h], ?_⟩
    intro hempty
    rw [classify_vendor, h] at hempty
    have h2 := congrArg String.length hempty
    rw [String.length_append] at h2
    have h3 : ("❌ Error: " : String).length = 9 := rfl
    have h4 : ("" : String).length = 0 := rfl
    omega

/-- Claim C5 counterexample: a successful response whose `organic_results`
array is present but empty does not yield a "No results" marker distinct
from the error string; indexing raises and the provider returns an error
string. -/
theorem get_serp_snippet_empty_results_is_error :
    get_serp_snippet (fun _ => Except.ok ⟨some []⟩) "Acme" "DC" "solar"
        = "Error retrieving snippet: list index out of range" ∧
    get_serp_snippet (fun _ => Except.ok ⟨some []⟩) "Acme" "DC" "solar"
        ≠ "No results" ∧
    get_serp_snippet (fun _ => Except.ok ⟨some []⟩) "Acme" "DC" "solar"
        ≠ "No snippet found" :=
  ⟨rfl, by decide, by decide⟩

/-- Claim C5 amended: on a successful response the provider returns the
literal "No snippet found" marker (distinct from its error strings) when the
`organic_results` key is absent or when the first organic result has no
`snippet` field; when `organic_results` is present but empty, the index
error is caught and an error string is returned; otherwise it returns the
snippet field of the first organic result. -/
theorem get_serp_snippet_success_cases (company location st s : String)
    (rest : List SerpResult) :
    get_serp_snippet (fun _ => Except.ok ⟨none⟩) company location st
        = "No snippet found" ∧
    get_serp_snippet (fun _ => Except.ok ⟨some (SerpResult.mk none :: rest)⟩)
        company location st = "No snippet found" ∧
    get_serp_snippet (fun _ => Except.ok ⟨some (SerpResult.mk (some s) :: rest)⟩)
        company location st = s ∧
    get_serp_snippet (fun _ => Except.ok ⟨some []⟩) company location st
        = "Error retrieving snippet: list index out of range" ∧
    ("No snippet found" : String) ≠ "Error retrieving snippet: list index out of range" :=
  ⟨rfl, rfl, rfl, rfl, by decide⟩

/-- The pipeline loop is the pointwise application of the per-row
computations, in order. -/
theorem runPipeline_eq_maps (http : String → Except String SerpData)
    (llm : String → String → Except String String)
    (st cat mc : String) (rows : List Row) :
    runPipeline http llm st cat mc rows =
      (rows.map (rowResult http llm st cat mc),
       rows.map (rowDebug http llm st cat mc),
       rows.map (rowQuery st),
       rows.map (rowPrompt http st cat)) := by
  induction rows with
  | nil => rfl
  | cons r rest ih => simp [runPipeline, ih]

/-- Zipping a list with its own image under a map is the map of the pairing. -/
theorem zip_self_map {α β : Type} (l : List α) (f : α → β) :
    l.zip (l.map f) = l.map (fun a => (a, f a)) := by
  induction l with
  | nil => rfl
  | cons a rest ih => simp [ih]

/-- Claim C6: a request-level failure of the snippet fetch yields the error
string embedding the failure detail instead of raising; the classification call of that row receives the error string as its snippet argument, and
the batch skips no row: the classification and debug sequences always have
one entry per row. -/
theorem snippet_failure_degrades_not_skips
    (http : String → Except String SerpData)
    (llm : String → String → Except String String)
    (st cat mc e : String) (r : Row) (rows : List Row)
    (h : http (rowQuery st r) = Except.error e) :
    rowSnippet http st r = "Error retrieving snippet: " ++ e ∧
    rowResult http llm st cat mc r
        = classify_vendor llm (pyStr r.company) ("Error retrieving snippet: " ++ e) cat mc ∧
    (runPipeline http llm st cat mc rows).1.length = rows.length ∧
    (runPipeline http llm st cat mc rows).2.1.length = rows.length := by
  have hs : rowSnippet http st r = "Error retrieving snippet: " ++ e := by
    rw [rowSnippet, get_serp_snippet]
    rw [show pyStr r.company ++ " " ++ pyStr r.location ++ " " ++ queryTerms st
          = rowQuery st r from rfl, h]
  refine ⟨hs, ?_, ?_, ?_⟩
  · rw [rowResult, hs]
  · rw [runPipeline_eq_maps]
    exact List.length_map rows _
  · rw [runPipeline_eq_maps]
    exact List.length_map rows _

theorem snippet_failure_degrades_not_skips_witness :
    httpFail (rowQuery "solar" row₀) = Except.error "boom" ∧
    (rowSnippet httpFail "solar" row₀ = "Error retrieving snippet: " ++ "boom" ∧
     rowResult httpFail llmOk "solar" "solar" "gpt-4" row₀
         = classify_vendor llmOk (pyStr row₀.company)
             ("Error retrieving snippet: " ++ "boom") "solar" "gpt-4" ∧
     (runPipeline httpFail llmOk "solar" "solar" "gpt-4" df₀).1.length = df₀.length ∧
     (runPipeline httpFail llmOk "solar" "solar" "gpt-4" df₀).2.1.length = df₀.length) :=
  ⟨rfl, snippet_failure_degrades_not_skips httpFail llmOk "solar" "solar" "gpt-4"
    "boom" row₀ df₀ rfl⟩

/-- Claim C7: when the filtered table is empty the pipeline performs zero
classifications and issues no call to the snippet service and none to the
classification service (all four output sequences, including both call
traces, are empty). -/
theorem empty_filtered_table_no_calls
    (http : String → Except String SerpData)
    (llm : String → String → Except String String)
    (df : List Row) (st cat mc : String)
    (h : filter_by_keywords df st = []) :
    runPipeline http llm st cat mc (filter_by_keywords df st) = ([], [], [], []) := by
  rw [h]
  rfl

theorem empty_filtered_table_no_calls_witness :
    filter_by_keywords df₀ "zzz" = [] ∧
    runPipeline httpFail llmOk "zzz" "solar" "gpt-4" (filter_by_keywords df₀ "zzz")
        = ([], [], [], []) :=
  ⟨by decide, empty_filtered_table_no_calls httpFail llmOk df₀ "zzz" "solar" "gpt-4"
    (by decide)⟩

/-- Claim C8: on completion, the output table is the filtered input with
exactly one Classification column appended: projecting the appended column
away gives back the filtered rows unchanged (columns, cell values and
order), the i-th classification is the per-row result of the i-th filtered
row, and the debug log is the ordered sequence of per-row records
(Company, Location, Snippet, Classification) parallel to the output rows. -/
theorem classification_run_output_shape
    (http : String → Except String SerpData)
    (llm : String → String → Except String String)
    (st cat mc : String) (rows : List Row) :
    outputTable http llm st cat mc rows
        = rows.map (fun r => (r, rowResult http llm st cat mc r)) ∧
    (outputTable http llm st cat mc rows).map Prod.fst = rows ∧
    (∀ i : Nat, (outputTable http llm st cat mc rows)[i]?
        = rows[i]?.map (fun r => (r, rowResult http llm st cat mc r))) ∧
    (runPipeline http llm st cat mc rows).2.1
        = rows.map (rowDebug http llm st cat mc) ∧
    (∀ r : Row, rowDebug http llm st cat mc r
        = ⟨pyStr r.company, pyStr r.location, rowSnippet http st r,
            rowResult http llm st cat mc r⟩) := by
  have hout : outputTable http llm st cat mc rows
      = rows.map (fun r => (r, rowResult http llm st cat mc r)) := by
    rw [outputTable, runPipeline_eq_maps]
    exact zip_self_map rows _
  refine ⟨hout, ?_, ?_, ?_, fun r => rfl⟩
  · rw [hout, List.map_map]
    exact List.map_id rows
  · intro i
    rw [hout, List.getElem?_map]
  · rw [runPipeline_eq_maps]
